import Mathlib

/-!
# Verification of the Manheim MMR cookie-refresher (`src/main.js`)

A shallow embedding of the cookie-refresher automation script.  Pure
computations of the script (cookie normalization, page-state predicates,
webhook-response parsing, essential-cookie extraction, payload assembly,
input validation, the humanized-delay arithmetic and the top-level
error-notification control flow) are translated into executable Lean
definitions; the browser, network and key-value store are modelled as
explicit inputs (cookie lists, poll results, response bodies, boolean
delivery outcomes).

JavaScript strings are modelled as Lean `String`s, JS numbers that hold
epoch timestamps, delays or random draws as `ℚ` (exact rationals; the
script performs no operation on them whose float rounding is observable
at the claims' granularity), and JSON field presence as `Option`.
-/

namespace CookiesMMR

/-- JS `haystack.includes(needle)`: substring containment. -/
def strIncludes (hay needle : String) : Bool :=
  (List.range (hay.toList.length + 1)).any
    (fun i => needle.toList.isPrefixOf (hay.toList.drop i))

/-- JS `String.prototype.toLowerCase` (ASCII-level, which is all the script
compares). -/
def jsToLower (s : String) : String := String.mk (s.toList.map Char.toLower)

/-- JS `String.prototype.trim`: strip leading and trailing whitespace. -/
def jsTrim (s : String) : String :=
  String.mk (((s.toList.dropWhile Char.isWhitespace).reverse.dropWhile
    Char.isWhitespace).reverse)

/-- `Cookie`: the cookie record shape used throughout the script
(Playwright cookie objects).  `expires` is `none` when the field is
absent/undefined; the session marker is `some (-1)`. -/
structure Cookie where
  name : String
  value : String
  domain : String
  path : String
  httpOnly : Bool
  secure : Bool
  sameSite : String
  expires : Option ℚ
  deriving DecidableEq, Repr

/-- JS truthiness of an optional numeric field (`cookie.expires && ...`):
absent/undefined and `0` are falsy. -/
def jsTruthyNum : Option ℚ → Bool
  | none => false
  | some e => e != 0

/-- `src/main.js` lines 132-141 (`restoreSavedCookies`): per-cookie expiry
fix.  A cookie whose `expires` is truthy, strictly positive and strictly
below `now` is rebuilt with `expires: -1` (session cookie) and all other
fields spread through unchanged; every other cookie is returned as is. -/
def fixExpiredCookie (now : ℚ) (c : Cookie) : Cookie :=
  if jsTruthyNum c.expires &&
     (match c.expires with
      | some e => decide (0 < e) && decide (e < now)
      | none => false) then
    { c with expires := some (-1) }
  else
    c

/-- `src/main.js` line 134: `savedCookies.map(cookie => ...)` — the pure
core of `restoreSavedCookies` (the KV-store fetch and the null/empty
checks around it are I/O and are modelled by the caller supplying
`saved`). -/
def restoreSavedCookiesFix (now : ℚ) (saved : List Cookie) : List Cookie :=
  saved.map (fixExpiredCookie now)

/-- A DOM `<input>` element restricted to the attributes the script's
`page.evaluate` callbacks read (`id`, `name`, `placeholder`, `type`,
`maxLength`).  `maxLength` is the DOM property, `-1` when the attribute is
absent. -/
structure InputField where
  id : String
  name : String
  placeholder : String
  type : String
  maxLength : Int
  deriving DecidableEq, Repr

/-- A rendered page as seen by the script's `page.evaluate` classifiers:
body text, the list of `<input>` elements, the DOM flags probed by the
CAPTCHA detector, and the page URL's hostname. -/
structure PageState where
  /-- `document.body.textContent`. -/
  bodyText : String
  /-- `document.body.innerText` (rendered/visible text only). -/
  visibleText : String
  inputs : List InputField
  hostname : String
  /-- `document.querySelector('.g-recaptcha')` is non-null. -/
  hasGRecaptchaDiv : Bool
  /-- `document.querySelector('[data-sitekey]')` is non-null. -/
  hasSitekeyAttr : Bool
  /-- an `iframe` whose `src` contains `recaptcha` exists. -/
  hasRecaptchaIframe : Bool
  /-- `document.querySelector('.h-captcha')` is non-null. -/
  hasHcaptchaDiv : Bool
  /-- an `iframe` whose `src` contains `hcaptcha` exists. -/
  hasHcaptchaIframe : Bool
  /-- an `iframe` whose `src` contains `captcha` exists. -/
  hasCaptchaIframe : Bool
  deriving DecidableEq, Repr

/-- `src/main.js` lines 259-263 (`detectLoginPage`): both `input#username`
and `input#password` are present. -/
def detectLoginPage (p : PageState) : Bool :=
  (p.inputs.any fun i => i.id == "username") &&
  (p.inputs.any fun i => i.id == "password")

/-- `src/main.js` lines 281-287 (`detect2FAPage`): the fixed vocabulary
scan over the lowercased body text. -/
def has2FAText (p : PageState) : Bool :=
  let t := jsToLower p.bodyText
  strIncludes t "verification code" ||
  strIncludes t "authentication code" ||
  strIncludes t "enter code" ||
  strIncludes t "two-factor" ||
  strIncludes t "2fa" ||
  strIncludes t "otp" ||
  strIncludes t "security code"

/-- `src/main.js` lines 291-310 (`detect2FAPage`): one input looks like a
2FA code input — `(nameMatch || lengthMatch) && typeMatch`. -/
def has2FAInput (p : PageState) : Bool :=
  p.inputs.any fun i =>
    let id := jsToLower i.id
    let nm := jsToLower i.name
    let ph := jsToLower i.placeholder
    let nameMatch :=
      strIncludes id "code" || strIncludes id "otp" || strIncludes id "token" ||
      strIncludes nm "code" || strIncludes nm "otp" || strIncludes nm "token" ||
      strIncludes ph "code" || strIncludes ph "verification"
    let lengthMatch := decide (4 ≤ i.maxLength) && decide (i.maxLength ≤ 8)
    let typeMatch := i.type == "text" || i.type == "number" || i.type == "tel"
    (nameMatch || lengthMatch) && typeMatch

/-- `src/main.js` lines 274-322 (`detect2FAPage`): text signal OR input
signal. -/
def detect2FAPage (p : PageState) : Bool :=
  has2FAText p || has2FAInput p

/-- The two-factor-page predicate exactly as claim C6 words it (phrase
list without `2fa`; the id/name/placeholder branch not constrained by
input type and probing `code`/`otp`/`token` on all three attributes).
Stated from the spec's words, to be compared against `detect2FAPage`. -/
def claim2FAPage (p : PageState) : Bool :=
  let t := jsToLower p.bodyText
  (strIncludes t "verification code" ||
   strIncludes t "authentication code" ||
   strIncludes t "two-factor" ||
   strIncludes t "otp" ||
   strIncludes t "security code" ||
   strIncludes t "enter code") ||
  (p.inputs.any fun i =>
    let id := jsToLower i.id
    let nm := jsToLower i.name
    let ph := jsToLower i.placeholder
    strIncludes id "code" || strIncludes id "otp" || strIncludes id "token" ||
    strIncludes nm "code" || strIncludes nm "otp" || strIncludes nm "token" ||
    strIncludes ph "code" || strIncludes ph "otp" || strIncludes ph "token") ||
  (p.inputs.any fun i =>
    decide (4 ≤ i.maxLength) && decide (i.maxLength ≤ 8) &&
    (i.type == "text" || i.type == "number" || i.type == "tel"))

/-- The `detect2FAPage` vocabulary as the code actually checks it,
regrouped the way the (amended) claim states it: the text phrase list
including `2fa`, a typed attribute-match input, or a typed length-match
input. -/
def amended2FAPage (p : PageState) : Bool :=
  has2FAText p ||
  (p.inputs.any fun i =>
    let id := jsToLower i.id
    let nm := jsToLower i.name
    let ph := jsToLower i.placeholder
    (strIncludes id "code" || strIncludes id "otp" || strIncludes id "token" ||
     strIncludes nm "code" || strIncludes nm "otp" || strIncludes nm "token" ||
     strIncludes ph "code" || strIncludes ph "verification") &&
    (i.type == "text" || i.type == "number" || i.type == "tel")) ||
  (p.inputs.any fun i =>
    (decide (4 ≤ i.maxLength) && decide (i.maxLength ≤ 8)) &&
    (i.type == "text" || i.type == "number" || i.type == "tel"))

/-- An apostrophe character, used inside the CAPTCHA phrase
`verify you're human`. -/
def apos : String := String.singleton (Char.ofNat 39)

/-- The record of blocking flags returned by `detectCaptchaOrBlocking`
(`src/main.js` lines 670-684). -/
structure BlockingStatus where
  hasCaptcha : Bool
  hasRecaptcha : Bool
  hasHcaptcha : Bool
  hasCloudflare : Bool
  hasAccessDenied : Bool
  hasSessionExpired : Bool
  hasRateLimit : Bool
  deriving DecidableEq, Repr

/-- `src/main.js` lines 653-655: `.g-recaptcha`, `[data-sitekey]` or a
`recaptcha` iframe. -/
def hasRecaptchaElement (p : PageState) : Bool :=
  p.hasGRecaptchaDiv || p.hasSitekeyAttr || p.hasRecaptchaIframe

/-- `src/main.js` lines 657-658: `.h-captcha` or an `hcaptcha` iframe. -/
def hasHcaptchaElement (p : PageState) : Bool :=
  p.hasHcaptchaDiv || p.hasHcaptchaIframe

/-- `src/main.js` lines 663-667: one of the five human-challenge phrases
occurs in the lowercased visible text. -/
def hasChallengePhrase (p : PageState) : Bool :=
  let v := jsToLower p.visibleText
  strIncludes v "complete the captcha" ||
  strIncludes v "solve the captcha" ||
  strIncludes v "verify you are human" ||
  strIncludes v ("verify you" ++ apos ++ "re human") ||
  strIncludes v "i am not a robot"

/-- `src/main.js` lines 644-717 (`detectCaptchaOrBlocking`): the page
evaluation producing the seven blocking flags.  `hasCaptcha` requires a
challenge phrase AND a concrete CAPTCHA widget/iframe marker. -/
def detectCaptchaOrBlocking (p : PageState) : BlockingStatus :=
  let text := jsToLower p.bodyText
  { hasCaptcha := hasChallengePhrase p &&
      (hasRecaptchaElement p || hasHcaptchaElement p || p.hasCaptchaIframe)
    hasRecaptcha := hasRecaptchaElement p
    hasHcaptcha := hasHcaptchaElement p
    hasCloudflare :=
      (strIncludes text "cloudflare" && strIncludes text "checking your browser") ||
      (strIncludes text "challenge" && strIncludes text "ray id")
    hasAccessDenied :=
      strIncludes text "access denied" || strIncludes text "403 forbidden" ||
      strIncludes text "not authorized"
    hasSessionExpired :=
      strIncludes text "session expired" || strIncludes text "please log in" ||
      strIncludes text "login required"
    hasRateLimit :=
      strIncludes text "too many requests" || strIncludes text "rate limit" }

/-- Outcome of the post-credential-submission classification. -/
inductive AuthOutcome where
  | needTwoFactor
  | authenticated
  | failed (msg : String)
  deriving DecidableEq, Repr

/-- The error thrown at `src/main.js` line 967 when the page is still on
the auth hostname after the login flow. -/
def stillOnAuthMsg : String :=
  "Still on auth page after login - authentication may have failed"

/-- `src/main.js` line 479 (the `detect2FAPage` re-check inside
`handleLoginFlow` after submitting credentials) combined with lines
962-968 (the caller's post-login check on the settled page): the flow
branches to the two-factor handler when `detect2FAPage` fires; otherwise
the caller fails the run iff the hostname is still `auth.manheim.com`,
and treats it as authenticated otherwise.  No login-form re-check occurs
after submission anywhere in the script. -/
def postSubmitOutcome (p : PageState) : AuthOutcome :=
  if detect2FAPage p then .needTwoFactor
  else if p.hostname == "auth.manheim.com" then .failed stillOnAuthMsg
  else .authenticated

/-- A decoded JSON value, restricted to the shape the 2FA-response parser
inspects: for objects only the four probed keys are retained (`none` =
key absent/undefined; any other key is never read).  JSON numbers are
modelled as integers (verification codes are integral; no float-specific
behaviour is exercised by the parser). -/
inductive JVal where
  | jstr (s : String)
  | jnum (n : Int)
  | jbool (b : Bool)
  | jnull
  | jobj (code twoFaCode otp token : Option JVal)
  | jarr

/-- JS truthiness of a decoded value: `""`, `0`, `false` and `null` are
falsy; objects and arrays are truthy. -/
def JVal.truthy : JVal → Bool
  | .jstr s => s != ""
  | .jnum n => n != 0
  | .jbool b => b
  | .jnull => false
  | .jobj _ _ _ _ => true
  | .jarr => true

/-- JS `a || b` over possibly-undefined values (`none` = undefined):
yields `a` when truthy, else `b`. -/
def jsOr (a b : Option JVal) : Option JVal :=
  match a with
  | some v => if v.truthy then some v else b
  | none => b

/-- `src/main.js` line 526:
`jsonResponse.code || jsonResponse['2fa_code'] || jsonResponse.otp || jsonResponse.token`. -/
def probeCodeFields (code twoFaCode otp token : Option JVal) : Option JVal :=
  jsOr code (jsOr twoFaCode (jsOr otp token))

/-- A 2FA webhook response body: either text that JSON-decodes to a value
`v` (paired with the raw text, which the catch-handler falls back to), or
text that fails JSON decoding. -/
inductive WebhookBody where
  | json (raw : String) (v : JVal)
  | text (raw : String)

/-- `src/main.js` lines 517-533: the `twoFACode` assignment.  JSON
primitives of type number/string are stringified and trimmed; objects are
probed via `probeCodeFields`; failed JSON decoding falls back to the
trimmed raw text.  A decoded `null` has `typeof === 'object'`, so probing
`.code` on it throws a `TypeError` that the same `catch` turns into the
trimmed raw text; decoded booleans match neither `typeof` branch and
arrays probe to `undefined`, leaving `twoFACode` unset. -/
def parse2FAResponse : WebhookBody → Option JVal
  | .text raw => some (.jstr (jsTrim raw))
  | .json raw v =>
    match v with
    | .jnum n => some (.jstr (jsTrim (toString n)))
    | .jstr s => some (.jstr (jsTrim s))
    | .jobj code twoFaCode otp token => probeCodeFields code twoFaCode otp token
    | .jnull => some (.jstr (jsTrim raw))
    | .jbool _ => none
    | .jarr => none

/-- `src/main.js` lines 535-537: `if (!twoFACode) throw ...` — the parsed
code is usable only when truthy; `none` means the run raises
`2FA webhook response did not contain a code`. -/
def extract2FACode (b : WebhookBody) : Option JVal :=
  match parse2FAResponse b with
  | some v => if v.truthy then some v else none
  | none => none

/-- `cookie.domain.includes('manheim')`. -/
def hasManheimDomain (d : String) : Bool := strIncludes d "manheim"

/-- The `essentialCookies` object of `src/main.js` lines 1376-1381: one
slot per essential cookie name, each initially `null`. -/
structure EssentialSlots where
  /-- slot for name `_cl` (required). -/
  cl : Option Cookie
  /-- slot for name `SESSION` (required). -/
  SESSION : Option Cookie
  /-- slot for name `session` (optional). -/
  sess : Option Cookie
  /-- slot for name `session.sig` (optional). -/
  sessSig : Option Cookie
  deriving DecidableEq, Repr

/-- `src/main.js` lines 1384-1392: one step of the `allCookies.forEach`
filling pass — a cookie is taken iff its name is one of the four slots,
that slot is still empty, and its domain contains `manheim`. -/
def scanCookie (slots : EssentialSlots) (c : Cookie) : EssentialSlots :=
  if c.name == "_cl" then
    if slots.cl.isNone && hasManheimDomain c.domain then
      { slots with cl := some c } else slots
  else if c.name == "SESSION" then
    if slots.SESSION.isNone && hasManheimDomain c.domain then
      { slots with SESSION := some c } else slots
  else if c.name == "session" then
    if slots.sess.isNone && hasManheimDomain c.domain then
      { slots with sess := some c } else slots
  else if c.name == "session.sig" then
    if slots.sessSig.isNone && hasManheimDomain c.domain then
      { slots with sessSig := some c } else slots
  else slots

/-- The full initial filling pass over the browser's cookies
(`src/main.js` lines 1384-1392). -/
def initialScan (allCookies : List Cookie) : EssentialSlots :=
  allCookies.foldl scanCookie ⟨none, none, none, none⟩

/-- `src/main.js` lines 1395-1405: the `missingRequired` list. -/
def missingRequired (s : EssentialSlots) : List String :=
  (if s.cl.isNone then ["_cl"] else []) ++
  (if s.SESSION.isNone then ["SESSION"] else [])

/-- `src/main.js` lines 1407-1414 (and kept in sync by the `splice` at
line 1471): the `missingOptional` list for a given slot state. -/
def missingOptionalOf (s : EssentialSlots) : List String :=
  (if s.sess.isNone then ["session"] else []) ++
  (if s.sessSig.isNone then ["session.sig"] else [])

/-- `src/main.js` lines 1464-1472: one step of the recovery re-poll scan,
which only fills the still-empty optional slots from `manheim`-domain
cookies named `session`/`session.sig`. -/
def recoveryScanCookie (slots : EssentialSlots) (c : Cookie) : EssentialSlots :=
  if c.name == "session" && hasManheimDomain c.domain && slots.sess.isNone then
    { slots with sess := some c }
  else if c.name == "session.sig" && hasManheimDomain c.domain && slots.sessSig.isNone then
    { slots with sessSig := some c }
  else slots

/-- `src/main.js` lines 1459-1474: the bounded recovery loop — at most 3
re-polls of `context.cookies()` (each poll an element of `polls`), each
scanned by `recoveryScanCookie`.  The loop's early exit when nothing is
missing is behaviourally a no-op here because a full slot is never
overwritten. -/
def recoveryPolls (slots : EssentialSlots) (polls : List (List Cookie)) : EssentialSlots :=
  (polls.take 3).foldl (fun s poll => poll.foldl recoveryScanCookie s) slots

/-- Slot state after the initial scan and, when an optional cookie is
missing, the recovery pass (`src/main.js` lines 1422-1488). -/
def finalSlots (allCookies : List Cookie) (polls : List (List Cookie)) : EssentialSlots :=
  let s := initialScan allCookies
  if (missingOptionalOf s).isEmpty then s else recoveryPolls s polls

/-- The `expires` entry of a `cookieDetails` record:
`slot?.expires || 'session'` (`src/main.js` lines 1520-1535) — absent
slot, absent field or the falsy value `0` give the string `'session'`. -/
inductive ExpiresField where
  | num (e : ℚ)
  | session
  deriving DecidableEq, Repr

/-- `slot?.expires || 'session'`. -/
def expiresOrSession : Option Cookie → ExpiresField
  | none => .session
  | some c =>
    match c.expires with
    | none => .session
    | some e => if e == 0 then .session else .num e

/-- `slot?.domain || dflt` (the `session`/`session.sig` rows default the
domain to `mcom-header-footer.manheim.com`). -/
def domainOrDefault (slot : Option Cookie) (dflt : String) : String :=
  match slot with
  | none => dflt
  | some c => if c.domain == "" then dflt else c.domain

/-- One row of the `cookieDetails` object (`src/main.js` lines
1516-1537). -/
structure CookieDetail where
  found : Bool
  domain : Option String
  expires : ExpiresField
  deriving DecidableEq, Repr

/-- The `cookieDetails` object of the success payload. -/
structure CookieDetails where
  cl : CookieDetail
  SESSION : CookieDetail
  sess : CookieDetail
  sessSig : CookieDetail
  deriving DecidableEq, Repr

/-- `src/main.js` lines 1516-1537. -/
def mkCookieDetails (s : EssentialSlots) : CookieDetails :=
  { cl := { found := s.cl.isSome, domain := s.cl.map Cookie.domain,
            expires := expiresOrSession s.cl }
    SESSION := { found := s.SESSION.isSome, domain := s.SESSION.map Cookie.domain,
                 expires := expiresOrSession s.SESSION }
    sess := { found := s.sess.isSome,
              domain := some (domainOrDefault s.sess "mcom-header-footer.manheim.com"),
              expires := expiresOrSession s.sess }
    sessSig := { found := s.sessSig.isSome,
                 domain := some (domainOrDefault s.sessSig "mcom-header-footer.manheim.com"),
                 expires := expiresOrSession s.sessSig } }

/-- The success `webhookPayload` (`src/main.js` lines 1510-1538).
`missingCookies` is `none` when the JS field is `undefined`. -/
structure WebhookPayload where
  success : Bool
  partialFlag : Bool
  missingCookies : Option (List String)
  timestamp : String
  cookies : List Cookie
  details : CookieDetails
  deriving DecidableEq, Repr

/-- `src/main.js` lines 1503-1538: the cookie array keeps only the found
slots, in the fixed order `_cl`, `SESSION`, `session`, `session.sig`. -/
def mkPayload (ts : String) (s : EssentialSlots) (isPartial : Bool)
    (missing : List String) : WebhookPayload :=
  { success := true
    partialFlag := isPartial
    missingCookies := if isPartial then some missing else none
    timestamp := ts
    cookies := [s.cl, s.SESSION, s.sess, s.sessSig].filterMap id
    details := mkCookieDetails s }

/-- The `Missing required cookies: ...` error of `src/main.js` line
1419. -/
def missingRequiredMsg (mreq : List String) : String :=
  "Missing required cookies: " ++ String.intercalate ", " mreq

/-- `src/main.js` lines 1375-1541 (STEP 6/7): the extraction pipeline —
initial scan, fatal error when a required cookie is missing (raised
before the recovery pass and before any webhook delivery), otherwise the
optional-cookie recovery pass and assembly of the success payload. -/
def runExtraction (allCookies : List Cookie) (polls : List (List Cookie))
    (ts : String) : Except String WebhookPayload :=
  let s0 := initialScan allCookies
  let mreq := missingRequired s0
  if mreq.isEmpty then
    let sF := finalSlots allCookies polls
    let mopt := missingOptionalOf sF
    .ok (mkPayload ts sF (!mopt.isEmpty) mopt)
  else
    .error (missingRequiredMsg mreq)

/-- A webhook envelope as serialized to the cookie webhook: the success
shape (`src/main.js` lines 1510-1538) or the failure shape (lines
1588-1593).  `none` marks JSON fields absent from the respective shape;
`cookies = none` is the failure shape's explicit `cookies: null`. -/
structure Envelope where
  success : Bool
  timestamp : String
  error : Option String
  cookies : Option (List Cookie)
  partialFlag : Option Bool
  missingCookies : Option (List String)
  details : Option CookieDetails
  deriving DecidableEq, Repr

/-- The success payload serialized as an envelope. -/
def successEnvelope (p : WebhookPayload) : Envelope :=
  { success := p.success
    timestamp := p.timestamp
    error := none
    cookies := some p.cookies
    partialFlag := some p.partialFlag
    missingCookies := p.missingCookies
    details := some p.details }

/-- The failure notification payload of `src/main.js` lines 1588-1593:
`{success: false, timestamp, error, cookies: null}`. -/
def failureEnvelope (ts err : String) : Envelope :=
  { success := false
    timestamp := ts
    error := some err
    cookies := none
    partialFlag := none
    missingCookies := none
    details := none }

/-- One attempted `fetch` POST to the cookie webhook.  `delivered` is
whether the HTTP request itself went through (its failure is at most
logged). -/
structure PostAttempt where
  url : String
  env : Envelope
  delivered : Bool
  deriving DecidableEq, Repr

/-- `Response.ok`: HTTP status in the 2xx range. -/
def statusOk (status : Nat) : Bool := 200 ≤ status && status < 300

/-- The `Webhook failed with status ...` error of `src/main.js` line
1564 (a non-2xx delivery response is fatal). -/
def deliveryFailedMsg (status : Nat) : String :=
  "Webhook failed with status " ++ toString status

/-- `src/main.js` lines 1375-1565 (the tail of the `try` body): the only
POSTs the run ever makes to the cookie webhook URL happen here (STEP 8)
and in the top-level catch handler.  On extraction failure nothing has
been posted yet; on success exactly one success envelope is posted, and a
non-2xx response (`deliveryStatus`) turns into a fatal error after the
post. -/
def tryBodyPosts (url ts : String) (allCookies : List Cookie)
    (polls : List (List Cookie)) (deliveryStatus : Nat) :
    List PostAttempt × Except String Unit :=
  match runExtraction allCookies polls ts with
  | .error e => ([], .error e)
  | .ok p =>
    if statusOk deliveryStatus then
      ([⟨url, successEnvelope p, true⟩], .ok ())
    else
      ([⟨url, successEnvelope p, true⟩], .error (deliveryFailedMsg deliveryStatus))

/-- `src/main.js` lines 1583-1606 (the top-level `catch`): on any fatal
error the failure envelope is POSTed to the same cookie webhook URL
(best-effort — `notifyDelivered` records whether that fetch succeeded,
and its failure is only logged), and the original error is re-raised
unchanged. -/
def catchNotify (url tsFail : String) (notifyDelivered : Bool)
    (body : List PostAttempt × Except String Unit) :
    List PostAttempt × Except String Unit :=
  match body with
  | (posts, .ok u) => (posts, .ok u)
  | (posts, .error e) =>
    (posts ++ [⟨url, failureEnvelope tsFail e, notifyDelivered⟩], .error e)

/-- The run from extraction onward, through the top-level catch: the
complete trace of cookie-webhook POST attempts, plus the run's final
outcome as seen by the scheduler. -/
def actorRunTail (url : String) (allCookies : List Cookie)
    (polls : List (List Cookie)) (tsOk tsFail : String)
    (deliveryStatus : Nat) (notifyDelivered : Bool) :
    List PostAttempt × Except String Unit :=
  catchNotify url tsFail notifyDelivered
    (tryBodyPosts url tsOk allCookies polls deliveryStatus)

/-- The run configuration's `credentials` object. -/
structure Credentials where
  username : String
  password : String
  deriving DecidableEq, Repr

/-- The run input as destructured at `src/main.js` lines 726-735,
restricted to the fields pre-flight validation reads.  For
`cookieWebhookUrl` the outer `Option` is JSON-field absence (the
destructuring default applies only then) and the inner `Option` is an
explicit JSON `null` (which the default does NOT replace).  For
`manheimCookies` and `credentials`, absence and `null` behave
identically in the validation, so a single `Option` suffices. -/
structure RunConfig where
  manheimCookies : Option (List Cookie)
  credentials : Option Credentials
  cookieWebhookUrl : Option (Option String)
  deriving DecidableEq, Repr

/-- The destructuring default for `cookieWebhookUrl` (`src/main.js` line
730). -/
def DEFAULT_COOKIE_WEBHOOK_URL : String :=
  "https://n8nsaved-production.up.railway.app/webhook/mmrcookies"

/-- The value `cookieWebhookUrl` holds after destructuring: the built-in
default when the field is absent, otherwise the supplied value. -/
def effectiveCookieWebhookUrl (cfg : RunConfig) : Option String :=
  match cfg.cookieWebhookUrl with
  | none => some DEFAULT_COOKIE_WEBHOOK_URL
  | some v => v

/-- The value `manheimCookies` holds after destructuring (default
`[]`). -/
def effectiveManheimCookies (cfg : RunConfig) : List Cookie :=
  cfg.manheimCookies.getD []

/-- JS truthiness of a possibly-null string (`!cookieWebhookUrl`). -/
def jsTruthyStr : Option String → Bool
  | none => false
  | some s => s != ""

/-- `src/main.js` line 744. -/
def missingUrlMsg : String :=
  "❌ cookieWebhookUrl is required! Please provide your webhook URL for cookie delivery."

/-- `src/main.js` line 749. -/
def missingAuthMsg : String :=
  "❌ Either manheimCookies OR credentials is required!"

/-- `src/main.js` lines 742-750: the pre-flight validation, run before
any fingerprint/profile/KV-store access and before the browser launches.
It fails iff the post-destructuring `cookieWebhookUrl` is falsy, or the
cookie array is empty/absent while `credentials` is null/absent. -/
def validateInput (cfg : RunConfig) : Except String Unit :=
  if !(jsTruthyStr (effectiveCookieWebhookUrl cfg)) then
    .error missingUrlMsg
  else if (effectiveManheimCookies cfg).isEmpty && cfg.credentials.isNone then
    .error missingAuthMsg
  else
    .ok ()

/-- `src/main.js` lines 723-1618 (`Actor.main`), seen from the cookie
webhook: the `try` block only begins at line 873, so a fatal error
thrown before it — pre-flight validation (lines 742-750), and likewise
the no-cookies-no-credentials throw at line 862 or a browser-launch
failure, none of which the catch at line 1583 encloses — propagates to
the scheduler directly, with no POST to the cookie webhook at all.  Only
when the pre-try phase completes does the run reach the
extraction/delivery tail with its catch-driven failure notification. -/
def actorRunWithPreflight (cfg : RunConfig) (url : String) (allCookies : List Cookie)
    (polls : List (List Cookie)) (tsOk tsFail : String) (deliveryStatus : Nat)
    (notifyDelivered : Bool) : List PostAttempt × Except String Unit :=
  match validateInput cfg with
  | .error e => ([], .error e)
  | .ok _ => actorRunTail url allCookies polls tsOk tsFail deliveryStatus notifyDelivered

/-- `Math.max` on rationals. -/
def jsMax (a b : ℚ) : ℚ := if a < b then b else a

/-- `src/main.js` lines 214-216 (`jitter`):
`Math.floor(Math.random() * 80) - 40`, as a function of the random draw
`r ∈ [0,1)`. -/
def jitterOf (r : ℚ) : Int := ⌊r * 80⌋ - 40

/-- `src/main.js` lines 218-222 (`humanDelay`): the duration in
milliseconds handed to `setTimeout`, as a function of the two random
draws — `Math.max(100, Math.random() * (max - min) + min + jitter())`. -/
def humanDelayDuration (min max rBase rJitter : ℚ) : ℚ :=
  let baseDelay := rBase * (max - min) + min
  let delay := baseDelay + (jitterOf rJitter : ℚ)
  jsMax 100 delay

/-- A cookie the extraction accepts for slot `_cl`: name `_cl` on a
`manheim` domain. -/
def isClMatch (c : Cookie) : Bool := c.name == "_cl" && hasManheimDomain c.domain

/-- A cookie the extraction accepts for slot `SESSION`. -/
def isSESSIONMatch (c : Cookie) : Bool := c.name == "SESSION" && hasManheimDomain c.domain

/-- A cookie the extraction accepts for slot `session`. -/
def isSessMatch (c : Cookie) : Bool := c.name == "session" && hasManheimDomain c.domain

/-- A cookie the extraction accepts for slot `session.sig`. -/
def isSessSigMatch (c : Cookie) : Bool := c.name == "session.sig" && hasManheimDomain c.domain

/-- An optional essential cookie is recovered iff a matching cookie
occurs in the initial browser snapshot or in one of the (at most 3)
recovery re-polls — the declarative counterpart of the imperative
scanning loops. -/
def optionalFound (ac : List Cookie) (polls : List (List Cookie)) (p : Cookie → Bool) : Bool :=
  ac.any p || (polls.take 3).any (fun poll => poll.any p)

section FoldLemmas

/-- A first-match-wins scanning fold fills a slot with the first cookie
satisfying `p`, and never overwrites a full slot. -/
theorem foldl_first_match {σ : Type} (f : σ → Cookie → σ) (get : σ → Option Cookie)
    (p : Cookie → Bool)
    (hf : ∀ s c, get (f s c) = if (get s).isNone && p c then some c else get s) :
    ∀ (l : List Cookie) (s : σ),
      get (l.foldl f s) = if (get s).isSome then get s else l.find? p := by
  intro l
  induction l with
  | nil =>
    intro s
    cases h : get s <;> simp [h]
  | cons c l ih =>
    intro s
    rw [List.foldl_cons, ih, hf]
    cases hs : get s with
    | some v => simp [hs]
    | none =>
      cases hp : p c with
      | true => simp [hs, hp]
      | false => simp [hs, hp]

/-- A fold whose step does not touch a component leaves it unchanged. -/
theorem foldl_preserves {σ β : Type} (f : σ → Cookie → σ) (get : σ → β)
    (hf : ∀ s c, get (f s c) = get s) :
    ∀ (l : List Cookie) (s : σ), get (l.foldl f s) = get s := by
  intro l
  induction l with
  | nil => intro s; rfl
  | cons c l ih => intro s; rw [List.foldl_cons, ih, hf]

/-- The nested poll fold fills a slot with the first match across the
concatenation of the polls. -/
theorem foldl_polls_first_match {σ : Type} (f : σ → Cookie → σ) (get : σ → Option Cookie)
    (p : Cookie → Bool)
    (hf : ∀ s c, get (f s c) = if (get s).isNone && p c then some c else get s) :
    ∀ (ps : List (List Cookie)) (s : σ),
      get (ps.foldl (fun s poll => poll.foldl f s) s) =
        if (get s).isSome then get s else ps.flatten.find? p := by
  intro ps
  induction ps with
  | nil =>
    intro s
    cases h : get s <;> simp [h]
  | cons poll ps ih =>
    intro s
    rw [List.foldl_cons, ih, foldl_first_match f get p hf]
    cases hs : get s with
    | some v => simp [hs]
    | none =>
      simp only [hs, Option.isSome_none, Bool.false_eq_true, if_false,
        List.flatten_cons, List.find?_append]
      cases hp : poll.find? p <;> simp [hp]

/-- The nested poll fold preserves untouched components. -/
theorem foldl_polls_preserves {σ β : Type} (f : σ → Cookie → σ) (get : σ → β)
    (hf : ∀ s c, get (f s c) = get s) :
    ∀ (ps : List (List Cookie)) (s : σ),
      get (ps.foldl (fun s poll => poll.foldl f s) s) = get s := by
  intro ps
  induction ps with
  | nil => intro s; rfl
  | cons poll ps ih => intro s; rw [List.foldl_cons, ih, foldl_preserves f get hf]

/-- `(l.find? p).isSome` is `l.any p`, as a `Bool` equation. -/
theorem find?_isSome_eq_any (l : List Cookie) (p : Cookie → Bool) :
    (l.find? p).isSome = l.any p := by
  induction l with
  | nil => rfl
  | cons c l ih => cases hp : p c <;> simp [hp, ih]

end FoldLemmas

section SlotLemmas

theorem scanCookie_cl (s : EssentialSlots) (c : Cookie) :
    (scanCookie s c).cl = if s.cl.isNone && isClMatch c then some c else s.cl := by
  simp only [scanCookie, isClMatch]
  split_ifs <;> simp_all

theorem scanCookie_SESSION (s : EssentialSlots) (c : Cookie) :
    (scanCookie s c).SESSION =
      if s.SESSION.isNone && isSESSIONMatch c then some c else s.SESSION := by
  simp only [scanCookie, isSESSIONMatch]
  split_ifs <;> simp_all

theorem scanCookie_sess (s : EssentialSlots) (c : Cookie) :
    (scanCookie s c).sess = if s.sess.isNone && isSessMatch c then some c else s.sess := by
  simp only [scanCookie, isSessMatch]
  split_ifs <;> simp_all

theorem scanCookie_sessSig (s : EssentialSlots) (c : Cookie) :
    (scanCookie s c).sessSig =
      if s.sessSig.isNone && isSessSigMatch c then some c else s.sessSig := by
  simp only [scanCookie, isSessSigMatch]
  split_ifs <;> simp_all

theorem recoveryScanCookie_cl (s : EssentialSlots) (c : Cookie) :
    (recoveryScanCookie s c).cl = s.cl := by
  simp only [recoveryScanCookie]
  split_ifs <;> simp_all

theorem recoveryScanCookie_SESSION (s : EssentialSlots) (c : Cookie) :
    (recoveryScanCookie s c).SESSION = s.SESSION := by
  simp only [recoveryScanCookie]
  split_ifs <;> simp_all

theorem recoveryScanCookie_sess (s : EssentialSlots) (c : Cookie) :
    (recoveryScanCookie s c).sess =
      if s.sess.isNone && isSessMatch c then some c else s.sess := by
  simp only [recoveryScanCookie, isSessMatch]
  split_ifs <;> simp_all

theorem recoveryScanCookie_sessSig (s : EssentialSlots) (c : Cookie) :
    (recoveryScanCookie s c).sessSig =
      if s.sessSig.isNone && isSessSigMatch c then some c else s.sessSig := by
  simp only [recoveryScanCookie, isSessSigMatch]
  split_ifs <;> simp_all

theorem initialScan_cl (ac : List Cookie) :
    (initialScan ac).cl = ac.find? isClMatch := by
  have h := foldl_first_match scanCookie EssentialSlots.cl isClMatch scanCookie_cl ac
    ⟨none, none, none, none⟩
  simpa using h

theorem initialScan_SESSION (ac : List Cookie) :
    (initialScan ac).SESSION = ac.find? isSESSIONMatch := by
  have h := foldl_first_match scanCookie EssentialSlots.SESSION isSESSIONMatch
    scanCookie_SESSION ac ⟨none, none, none, none⟩
  simpa using h

theorem initialScan_sess (ac : List Cookie) :
    (initialScan ac).sess = ac.find? isSessMatch := by
  have h := foldl_first_match scanCookie EssentialSlots.sess isSessMatch scanCookie_sess ac
    ⟨none, none, none, none⟩
  simpa using h

theorem initialScan_sessSig (ac : List Cookie) :
    (initialScan ac).sessSig = ac.find? isSessSigMatch := by
  have h := foldl_first_match scanCookie EssentialSlots.sessSig isSessSigMatch
    scanCookie_sessSig ac ⟨none, none, none, none⟩
  simpa using h

theorem recoveryPolls_cl (s : EssentialSlots) (polls : List (List Cookie)) :
    (recoveryPolls s polls).cl = s.cl :=
  foldl_polls_preserves recoveryScanCookie EssentialSlots.cl recoveryScanCookie_cl
    (polls.take 3) s

theorem recoveryPolls_SESSION (s : EssentialSlots) (polls : List (List Cookie)) :
    (recoveryPolls s polls).SESSION = s.SESSION :=
  foldl_polls_preserves recoveryScanCookie EssentialSlots.SESSION recoveryScanCookie_SESSION
    (polls.take 3) s

theorem recoveryPolls_sess (s : EssentialSlots) (polls : List (List Cookie)) :
    (recoveryPolls s polls).sess =
      if s.sess.isSome then s.sess else ((polls.take 3).flatten).find? isSessMatch :=
  foldl_polls_first_match recoveryScanCookie EssentialSlots.sess isSessMatch
    recoveryScanCookie_sess (polls.take 3) s

theorem recoveryPolls_sessSig (s : EssentialSlots) (polls : List (List Cookie)) :
    (recoveryPolls s polls).sessSig =
      if s.sessSig.isSome then s.sessSig else ((polls.take 3).flatten).find? isSessSigMatch :=
  foldl_polls_first_match recoveryScanCookie EssentialSlots.sessSig isSessSigMatch
    recoveryScanCookie_sessSig (polls.take 3) s

theorem finalSlots_cl (ac : List Cookie) (polls : List (List Cookie)) :
    (finalSlots ac polls).cl = ac.find? isClMatch := by
  simp only [finalSlots]
  split
  · exact initialScan_cl ac
  · rw [recoveryPolls_cl, initialScan_cl]

theorem finalSlots_SESSION (ac : List Cookie) (polls : List (List Cookie)) :
    (finalSlots ac polls).SESSION = ac.find? isSESSIONMatch := by
  simp only [finalSlots]
  split
  · exact initialScan_SESSION ac
  · rw [recoveryPolls_SESSION, initialScan_SESSION]

theorem finalSlots_sess (ac : List Cookie) (polls : List (List Cookie)) :
    (finalSlots ac polls).sess =
      (ac.find? isSessMatch).or (((polls.take 3).flatten).find? isSessMatch) := by
  simp only [finalSlots]
  split
  · next hEmpty =>
    rw [initialScan_sess]
    have hsome : (initialScan ac).sess.isSome = true := by
      unfold missingOptionalOf at hEmpty
      by_contra hnot
      rw [Option.not_isSome_iff_eq_none] at hnot
      simp [hnot] at hEmpty
    rw [initialScan_sess] at hsome
    obtain ⟨v, hv⟩ := Option.isSome_iff_exists.mp hsome
    simp [hv, Option.or]
  · rw [recoveryPolls_sess, initialScan_sess]
    cases h : ac.find? isSessMatch <;> simp [h, Option.or]

theorem finalSlots_sessSig (ac : List Cookie) (polls : List (List Cookie)) :
    (finalSlots ac polls).sessSig =
      (ac.find? isSessSigMatch).or (((polls.take 3).flatten).find? isSessSigMatch) := by
  simp only [finalSlots]
  split
  · next hEmpty =>
    rw [initialScan_sessSig]
    have hsome : (initialScan ac).sessSig.isSome = true := by
      unfold missingOptionalOf at hEmpty
      by_contra hnot
      rw [Option.not_isSome_iff_eq_none] at hnot
      simp [hnot] at hEmpty
    rw [initialScan_sessSig] at hsome
    obtain ⟨v, hv⟩ := Option.isSome_iff_exists.mp hsome
    simp [hv, Option.or]
  · rw [recoveryPolls_sessSig, initialScan_sessSig]
    cases h : ac.find? isSessSigMatch <;> simp [h, Option.or]

theorem finalSlots_sess_isSome (ac : List Cookie) (polls : List (List Cookie)) :
    (finalSlots ac polls).sess.isSome = optionalFound ac polls isSessMatch := by
  rw [finalSlots_sess]
  unfold optionalFound
  rw [← find?_isSome_eq_any ac]
  have h2 : (polls.take 3).any (fun poll => poll.any isSessMatch) =
      (((polls.take 3).flatten).find? isSessMatch).isSome := by
    rw [find?_isSome_eq_any, List.any_flatten]
  rw [h2]
  cases h : ac.find? isSessMatch <;> simp [h, Option.or]

theorem finalSlots_sessSig_isSome (ac : List Cookie) (polls : List (List Cookie)) :
    (finalSlots ac polls).sessSig.isSome = optionalFound ac polls isSessSigMatch := by
  rw [finalSlots_sessSig]
  unfold optionalFound
  rw [← find?_isSome_eq_any ac]
  have h2 : (polls.take 3).any (fun poll => poll.any isSessSigMatch) =
      (((polls.take 3).flatten).find? isSessSigMatch).isSome := by
    rw [find?_isSome_eq_any, List.any_flatten]
  rw [h2]
  cases h : ac.find? isSessSigMatch <;> simp [h, Option.or]

theorem finalSlots_sess_matches (ac : List Cookie) (polls : List (List Cookie))
    (c : Cookie) (h : (finalSlots ac polls).sess = some c) : isSessMatch c = true := by
  rw [finalSlots_sess] at h
  cases h1 : ac.find? isSessMatch with
  | some v =>
    rw [h1, Option.or_some] at h
    injection h with hvc
    rw [← hvc]
    exact List.find?_some h1
  | none =>
    rw [h1, Option.none_or] at h
    exact List.find?_some h

theorem finalSlots_sessSig_matches (ac : List Cookie) (polls : List (List Cookie))
    (c : Cookie) (h : (finalSlots ac polls).sessSig = some c) : isSessSigMatch c = true := by
  rw [finalSlots_sessSig] at h
  cases h1 : ac.find? isSessSigMatch with
  | some v =>
    rw [h1, Option.or_some] at h
    injection h with hvc
    rw [← hvc]
    exact List.find?_some h1
  | none =>
    rw [h1, Option.none_or] at h
    exact List.find?_some h

end SlotLemmas

/-- `(missingOptionalOf s).isEmpty` says both optional slots are full. -/
theorem missingOptional_isEmpty (s : EssentialSlots) :
    (missingOptionalOf s).isEmpty = (s.sess.isSome && s.sessSig.isSome) := by
  unfold missingOptionalOf
  cases hs : s.sess <;> cases ht : s.sessSig <;> simp [hs, ht]

/-! ## Claim C2 — expired-cookie normalization in `restoreSavedCookies` -/

/-- A stored cookie whose `expires` is the epoch instant `0` — strictly in
the past for any positive `now`. -/
def c2CounterCookie : Cookie :=
  { name := "PF.PERSISTENT", value := "v", domain := ".manheim.com", path := "/",
    httpOnly := true, secure := true, sameSite := "Lax", expires := some 0 }

/-- C2 (counterexample): a saved cookie with `expires = 0` is strictly in
the past at a restore time of `1700000000`, yet `restoreSavedCookies`
returns it unchanged — the guard `cookie.expires && cookie.expires > 0`
skips the falsy value `0`, so the claim's "every cookie whose expires is
strictly in the past gets the session marker" fails. -/
theorem c2_expires_zero_kept :
    c2CounterCookie.expires = some 0 ∧ (0 : ℚ) < 1700000000 ∧
    restoreSavedCookiesFix 1700000000 [c2CounterCookie] = [c2CounterCookie] ∧
    (fixExpiredCookie 1700000000 c2CounterCookie).expires ≠ some (-1) := by
  refine ⟨rfl, by norm_num, rfl, ?_⟩
  intro h
  rw [show (fixExpiredCookie 1700000000 c2CounterCookie).expires = some 0 from rfl] at h
  have := Option.some.inj h
  norm_num at this

/-- C2 (amended): `restoreSavedCookies` maps each saved cookie through the
expiry fix, which replaces `expires` by the session marker `-1` exactly
when the field holds a strictly positive value strictly below `now`
(leaving `expires = 0`, absent `expires`, session markers and unexpired
timestamps untouched), and never alters any other field. -/
theorem c2_fix_is_fieldwise (now : ℚ) (c : Cookie) :
    (fixExpiredCookie now c).name = c.name ∧
    (fixExpiredCookie now c).value = c.value ∧
    (fixExpiredCookie now c).domain = c.domain ∧
    (fixExpiredCookie now c).path = c.path ∧
    (fixExpiredCookie now c).httpOnly = c.httpOnly ∧
    (fixExpiredCookie now c).secure = c.secure ∧
    (fixExpiredCookie now c).sameSite = c.sameSite ∧
    (fixExpiredCookie now c).expires =
      (match c.expires with
       | some e => if 0 < e ∧ e < now then some (-1) else some e
       | none => none) ∧
    restoreSavedCookiesFix now [c] = [fixExpiredCookie now c] := by
  have hmain : fixExpiredCookie now c =
      (match c.expires with
       | some e => if 0 < e ∧ e < now then { c with expires := some (-1) } else c
       | none => c) := by
    unfold fixExpiredCookie jsTruthyNum
    cases hc : c.expires with
    | none => simp
    | some e =>
      by_cases h1 : (0 : ℚ) < e <;> by_cases h2 : e < now
      · simp [h1, h2, ne_of_gt h1]
      · simp [h1, h2]
      · simp [h1, h2]
      · simp [h1, h2]
  refine ⟨?_, ?_, ?_, ?_, ?_, ?_, ?_, ?_, rfl⟩ <;>
  · rw [hmain]
    cases hc : c.expires with
    | none => simp [hc]
    | some e =>
      dsimp only
      split_ifs <;> simp [hc]

/-! ## Claim C3 — the two-factor webhook response parser -/

/-- The body `{"code":"123456"}`. -/
def c3ObjBody : WebhookBody :=
  .json "\x7b\x22code\x22:\x22123456\x22\x7d" (.jobj (some (.jstr "123456")) none none none)

/-- C3 (counterexample): the body `true` decodes to the JSON primitive
`true`, but the parser's `typeof` guard only stringifies numbers and
strings — a decoded boolean leaves `twoFACode` unset and the run raises
the no-code error, so "a decoded JSON primitive is stringified and
trimmed" fails for booleans. -/
theorem c3_bool_body_yields_no_code :
    extract2FACode (.json "true" (.jbool true)) = none ∧
    extract2FACode (.json "true" (.jbool true)) ≠ some (.jstr "true") := by
  refine ⟨rfl, ?_⟩
  intro h
  rw [show extract2FACode (.json "true" (.jbool true)) = none from rfl] at h
  exact Option.noConfusion h

theorem probe_filter_eq (code twoFaCode otp token : Option JVal) :
    (match probeCodeFields code twoFaCode otp token with
     | some v => if v.truthy then some v else none
     | none => none) =
      ([code, twoFaCode, otp, token].filterMap id).find? JVal.truthy := by
  cases code <;> cases twoFaCode <;> cases otp <;> cases token <;>
    simp only [probeCodeFields, jsOr, List.filterMap_cons, id, List.filterMap_nil,
      List.find?] <;>
    first
      | rfl
      | ((repeat' split) <;> simp_all)

/-- C3 (amended): the three concrete bodies parse to `"123456"`,
`"654321"` and `"789012"` (the body `789012` is in fact valid JSON and
takes the number path, with the same result the claim states); a decoded
JSON string or number is stringified and trimmed; a decoded object is
probed for `code`, `2fa_code`, `otp`, `token` in that order, taking the
first truthy value; a body that fails JSON decoding is used as the
trimmed raw text (usable only when non-empty); a decoded boolean is
never stringified — it yields no usable code. -/
theorem c3_parser_cases :
    extract2FACode c3ObjBody = some (.jstr "123456") ∧
    extract2FACode (.json "\x22654321\x22" (.jstr "654321")) = some (.jstr "654321") ∧
    extract2FACode (.json "789012" (.jnum 789012)) = some (.jstr "789012") ∧
    (∀ raw n, parse2FAResponse (.json raw (.jnum n)) = some (.jstr (jsTrim (toString n)))) ∧
    (∀ raw s, parse2FAResponse (.json raw (.jstr s)) = some (.jstr (jsTrim s))) ∧
    (∀ raw code twoFaCode otp token,
       extract2FACode (.json raw (.jobj code twoFaCode otp token)) =
         ([code, twoFaCode, otp, token].filterMap id).find? JVal.truthy) ∧
    (∀ raw, extract2FACode (.text raw) =
       (if jsTrim raw == "" then none else some (.jstr (jsTrim raw)))) ∧
    (∀ raw b, extract2FACode (.json raw (.jbool b)) = none) := by
  refine ⟨rfl, rfl, rfl, fun raw n => rfl, fun raw s => rfl, ?_, ?_, ?_⟩
  · intro raw code twoFaCode otp token
    rw [← probe_filter_eq]
    rfl
  · intro raw
    show (if (jsTrim raw != "") = true then some (JVal.jstr (jsTrim raw)) else none) = _
    cases h : jsTrim raw == "" <;> simp [bne, h]
  · intro raw b
    cases b <;> rfl

/-! ## Claim C5 — post-credential-submission classification -/

/-- A settled post-submit page that still shows the login form
(`input#username` and `input#password`) but sits on the MMR hostname. -/
def c5RejectedPage : PageState :=
  { bodyText := "sign in manheim", visibleText := "sign in manheim",
    inputs :=
      [{ id := "username", name := "pf.username", placeholder := "", type := "text",
         maxLength := -1 },
       { id := "password", name := "pf.pass", placeholder := "", type := "password",
         maxLength := -1 }],
    hostname := "mmr.manheim.com",
    hasGRecaptchaDiv := false, hasSitekeyAttr := false, hasRecaptchaIframe := false,
    hasHcaptchaDiv := false, hasHcaptchaIframe := false, hasCaptchaIframe := false }

/-- C5 (counterexample): after submit, when the two-factor check is false
and the page still exhibits the login form, the script does NOT fail —
its post-login failure test is `hostname === 'auth.manheim.com'`, not
`isLoginPage`, so on any other hostname the state is treated as
authenticated. -/
theorem c5_login_form_not_failed :
    detect2FAPage c5RejectedPage = false ∧
    detectLoginPage c5RejectedPage = true ∧
    postSubmitOutcome c5RejectedPage = .authenticated := by
  refine ⟨?_, ?_, ?_⟩ <;> decide

/-- C5 (amended): after submitting credentials and the settle delay, the
flow re-runs the two-factor check; when it is false, the attempt is
treated as Failed (with the still-on-auth-page error) iff the page's
hostname is still `auth.manheim.com`, and as authenticated otherwise —
whether or not the login form is still present. -/
theorem c5_hostname_decides_failure (p : PageState) (h : detect2FAPage p = false) :
    (postSubmitOutcome p = .failed stillOnAuthMsg ↔ p.hostname = "auth.manheim.com") ∧
    (postSubmitOutcome p = .authenticated ↔ p.hostname ≠ "auth.manheim.com") := by
  unfold postSubmitOutcome
  rw [h]
  by_cases hh : p.hostname = "auth.manheim.com" <;> simp [hh]

/-- A settled post-submit page still on the auth hostname, with no
two-factor signal. -/
def c5AuthHostPage : PageState :=
  { bodyText := "", visibleText := "", inputs := [], hostname := "auth.manheim.com",
    hasGRecaptchaDiv := false, hasSitekeyAttr := false, hasRecaptchaIframe := false,
    hasHcaptchaDiv := false, hasHcaptchaIframe := false, hasCaptchaIframe := false }

theorem c5_hostname_decides_failure_witness :
    postSubmitOutcome c5AuthHostPage = .failed stillOnAuthMsg ∧
    detect2FAPage c5AuthHostPage = false :=
  ⟨(c5_hostname_decides_failure c5AuthHostPage (by decide)).1.mpr rfl, by decide⟩

/-! ## Claim C6 — the `detect2FAPage` signal vocabulary -/

/-- `List.any` distributes an `(f ∨ g) ∧ h` test into two separate
scans. -/
theorem any_split_and_or (l : List InputField) (f g h : InputField → Bool) :
    (l.any fun i => (f i || g i) && h i) =
      ((l.any fun i => f i && h i) || (l.any fun i => g i && h i)) := by
  induction l with
  | nil => rfl
  | cons i l ih =>
    simp only [List.any_cons, ih]
    cases f i <;> cases g i <;> cases h i <;>
      simp [Bool.or_assoc, Bool.or_comm, Bool.or_left_comm]

/-- A page whose body text contains the bare substring `2fa` and nothing
else of note. -/
def c6TwoFaWordPage : PageState :=
  { bodyText := "my 2fa settings", visibleText := "", inputs := [], hostname := "",
    hasGRecaptchaDiv := false, hasSitekeyAttr := false, hasRecaptchaIframe := false,
    hasHcaptchaDiv := false, hasHcaptchaIframe := false, hasCaptchaIframe := false }

/-- C6 (counterexample): `detect2FAPage` also fires on the bare substring
`2fa`, which the claim's phrase list omits — on a page whose text contains
`2fa` but none of the six listed phrases and which has no inputs at all,
the code returns `true` while the claim's "iff" condition
(`claim2FAPage`) is `false`. -/
theorem c6_twofa_substring_breaks_iff :
    detect2FAPage c6TwoFaWordPage = true ∧ claim2FAPage c6TwoFaWordPage = false := by
  constructor <;> decide

/-- Fixture: the text `Enter your verification code`, no matching input. -/
def c6TextFixture : PageState :=
  { bodyText := "Enter your verification code", visibleText := "", inputs := [],
    hostname := "",
    hasGRecaptchaDiv := false, hasSitekeyAttr := false, hasRecaptchaIframe := false,
    hasHcaptchaDiv := false, hasHcaptchaIframe := false, hasCaptchaIframe := false }

/-- Fixture: no two-factor text, one input with `maxlength=6` and
`type=text`. -/
def c6InputFixture : PageState :=
  { bodyText := "", visibleText := "", inputs :=
      [{ id := "", name := "", placeholder := "", type := "text", maxLength := 6 }],
    hostname := "",
    hasGRecaptchaDiv := false, hasSitekeyAttr := false, hasRecaptchaIframe := false,
    hasHcaptchaDiv := false, hasHcaptchaIframe := false, hasCaptchaIframe := false }

/-- Fixture: neither signal. -/
def c6NeitherFixture : PageState :=
  { bodyText := "welcome to the manheim marketplace", visibleText := "", inputs :=
      [{ id := "q", name := "q", placeholder := "search", type := "text",
         maxLength := -1 }],
    hostname := "",
    hasGRecaptchaDiv := false, hasSitekeyAttr := false, hasRecaptchaIframe := false,
    hasHcaptchaDiv := false, hasHcaptchaIframe := false, hasCaptchaIframe := false }

/-- C6 (amended): `detect2FAPage` is true iff the lowercased page text
contains one of the phrases `verification code`, `authentication code`,
`enter code`, `two-factor`, `2fa`, `otp`, `security code`, or an input of
type text/number/tel exists whose id/name references code/otp/token or
whose placeholder references code/verification, or an input of type
text/number/tel exists whose maxLength lies in 4–8 (`amended2FAPage`);
the three fixtures of the claim evaluate as the claim states. -/
theorem c6_detect2fa_characterization :
    (∀ p, detect2FAPage p = amended2FAPage p) ∧
    detect2FAPage c6TextFixture = true ∧
    detect2FAPage c6InputFixture = true ∧
    detect2FAPage c6NeitherFixture = false := by
  refine ⟨?_, by decide, by decide, by decide⟩
  intro p
  unfold detect2FAPage amended2FAPage has2FAInput
  rw [any_split_and_or]
  cases has2FAText p <;> simp [Bool.or_assoc]

/-! ## Claim C7 — `hasCaptcha` needs phrase AND widget -/

/-- A page mentioning robots in unrelated prose, with no CAPTCHA
widget. -/
def c7RobotPage : PageState :=
  { bodyText := "robots and robot crawlers appear in unrelated prose",
    visibleText := "robots and robot crawlers appear in unrelated prose",
    inputs := [], hostname := "",
    hasGRecaptchaDiv := false, hasSitekeyAttr := false, hasRecaptchaIframe := false,
    hasHcaptchaDiv := false, hasHcaptchaIframe := false, hasCaptchaIframe := false }

/-- C7: the blocking detector's `hasCaptcha` flag is true only when a
human-challenge phrase is present in the visible text AND a CAPTCHA
widget or iframe marker exists in the DOM; in particular it is false on
the robot-prose fixture with no widget. -/
theorem c7_captcha_needs_phrase_and_widget :
    (∀ p, (detectCaptchaOrBlocking p).hasCaptcha = true →
       hasChallengePhrase p = true ∧
       (hasRecaptchaElement p || hasHcaptchaElement p || p.hasCaptchaIframe) = true) ∧
    (detectCaptchaOrBlocking c7RobotPage).hasCaptcha = false := by
  constructor
  · intro p h
    rw [show (detectCaptchaOrBlocking p).hasCaptcha =
        (hasChallengePhrase p &&
          (hasRecaptchaElement p || hasHcaptchaElement p || p.hasCaptchaIframe)) from rfl] at h
    rw [Bool.and_eq_true] at h
    exact h
  · decide

/-- A page with the phrase `verify you are human` and a reCAPTCHA
container. -/
def c7ChallengePage : PageState :=
  { bodyText := "please verify you are human",
    visibleText := "please verify you are human",
    inputs := [], hostname := "",
    hasGRecaptchaDiv := true, hasSitekeyAttr := false, hasRecaptchaIframe := false,
    hasHcaptchaDiv := false, hasHcaptchaIframe := false, hasCaptchaIframe := false }

theorem c7_captcha_needs_phrase_and_widget_witness :
    hasChallengePhrase c7ChallengePage = true ∧
    (hasRecaptchaElement c7ChallengePage || hasHcaptchaElement c7ChallengePage ||
      c7ChallengePage.hasCaptchaIframe) = true :=
  c7_captcha_needs_phrase_and_widget.1 c7ChallengePage (by decide)

/-! ## Claim C9 — pre-flight validation -/

/-- An essential input cookie for the C9 fixtures. -/
def c9InputCookie : Cookie :=
  { name := "_cl", value := "v", domain := ".manheim.com", path := "/",
    httpOnly := false, secure := false, sameSite := "None", expires := some 1 }

/-- A run configuration that omits `cookieWebhookUrl` entirely and
supplies a non-empty cookie array. -/
def c9OmittedUrlConfig : RunConfig :=
  { manheimCookies := some [c9InputCookie], credentials := none,
    cookieWebhookUrl := none }

/-- C9 (counterexample): omitting `cookieWebhookUrl` does NOT raise the
pre-flight validation error — the destructuring default at line 730
substitutes a built-in production webhook URL, which is truthy, so the
`!cookieWebhookUrl` check passes.  `cookieWebhookUrl` is therefore not
unconditionally required. -/
theorem c9_omitted_url_not_fatal :
    c9OmittedUrlConfig.cookieWebhookUrl = none ∧
    validateInput c9OmittedUrlConfig = .ok () ∧
    effectiveCookieWebhookUrl c9OmittedUrlConfig = some DEFAULT_COOKIE_WEBHOOK_URL :=
  ⟨rfl, rfl, rfl⟩

/-- C9 (amended): pre-flight validation (which runs before any browser or
storage interaction) raises a fatal error exactly when the
post-destructuring `cookieWebhookUrl` is falsy (explicit `null` or empty
string — an omitted field falls back to a built-in default URL instead of
failing), or when neither a non-empty cookies array nor credentials are
supplied. -/
theorem c9_validation_characterization (cfg : RunConfig) :
    ((∃ e, validateInput cfg = .error e) ↔
      (jsTruthyStr (effectiveCookieWebhookUrl cfg) = false ∨
        ((effectiveManheimCookies cfg).isEmpty = true ∧ cfg.credentials = none))) ∧
    (cfg.cookieWebhookUrl = none →
      effectiveCookieWebhookUrl cfg = some DEFAULT_COOKIE_WEBHOOK_URL) := by
  constructor
  · unfold validateInput
    split_ifs with h1 h2
    · constructor
      · intro _
        exact Or.inl (by rwa [Bool.not_eq_true'] at h1)
      · intro _
        exact ⟨missingUrlMsg, rfl⟩
    · constructor
      · intro _
        rw [Bool.and_eq_true] at h2
        exact Or.inr ⟨h2.1, Option.isNone_iff_eq_none.mp h2.2⟩
      · intro _
        exact ⟨missingAuthMsg, rfl⟩
    · constructor
      · rintro ⟨e, he⟩
        exact he.elim
      · rintro (hf | ⟨hempty, hnone⟩)
        · exact absurd (by rw [hf]; rfl) h1
        · refine absurd ?_ h2
          rw [Bool.and_eq_true]
          exact ⟨hempty, Option.isNone_iff_eq_none.mpr hnone⟩
  · intro h
    unfold effectiveCookieWebhookUrl
    rw [h]

/-- A run configuration with a webhook URL but neither cookies nor
credentials. -/
def c9NoAuthConfig : RunConfig :=
  { manheimCookies := none, credentials := none,
    cookieWebhookUrl := some (some "https://example.com/hook") }

theorem c9_validation_characterization_witness :
    (∃ e, validateInput c9NoAuthConfig = .error e) ∧
    effectiveCookieWebhookUrl c9NoAuthConfig = some "https://example.com/hook" :=
  ⟨(c9_validation_characterization c9NoAuthConfig).1.mpr (Or.inr ⟨rfl, rfl⟩), rfl⟩

/-! ## Claim C10 — `humanDelay` bounds -/

/-- C10 (counterexample): the claim's bound `duration ≤ max + 40` is
violated by the clamp when `max < 60` — `humanDelay(0, 0)` always sleeps
the clamped minimum of 100 ms, which exceeds `0 + 40`. -/
theorem c10_small_max_breaks_bound :
    humanDelayDuration 0 0 0 0 = 100 ∧
    ¬ humanDelayDuration 0 0 0 0 ≤ 0 + 40 := by
  constructor
  · norm_num [humanDelayDuration, jitterOf, jsMax]
  · norm_num [humanDelayDuration, jitterOf, jsMax]

/-- C10 (amended): for random draws `rBase, rJitter ∈ [0,1)` and
`min ≤ max`, the duration handed to `setTimeout` is at least 100 ms and
at most `Math.max(100, max + 40)` ms; whenever `60 ≤ max` (true at every
`humanDelay` call site in the script, whose smallest `max` is 600) the
upper bound is `max + 40` as the claim states.  The base term is
`rBase * (max - min) + min ∈ [min, max]` and the jitter term
`⌊rJitter * 80⌋ - 40 ∈ [-40, 39] ⊆ [-40, 40]`. -/
theorem c10_delay_bounds (min max rBase rJitter : ℚ)
    (hmin : min ≤ max) (h0 : 0 ≤ rBase) (h1 : rBase < 1)
    (h2 : 0 ≤ rJitter) (h3 : rJitter < 1) :
    100 ≤ humanDelayDuration min max rBase rJitter ∧
    humanDelayDuration min max rBase rJitter ≤ jsMax 100 (max + 40) ∧
    (60 ≤ max → humanDelayDuration min max rBase rJitter ≤ max + 40) := by
  have hjlt : ⌊rJitter * 80⌋ < 80 := by
    rw [Int.floor_lt]
    push_cast
    nlinarith
  have hjle : (⌊rJitter * 80⌋ : ℚ) ≤ 79 := by
    have : ⌊rJitter * 80⌋ ≤ 79 := by omega
    exact_mod_cast this
  have hj : ((jitterOf rJitter : Int) : ℚ) ≤ 39 := by
    unfold jitterOf
    push_cast
    linarith
  have hbase : rBase * (max - min) + min ≤ max := by nlinarith
  simp only [humanDelayDuration, jsMax]
  refine ⟨?_, ?_, ?_⟩
  · split_ifs <;> linarith
  · split_ifs <;> linarith
  · intro h60
    split_ifs <;> linarith

theorem c10_delay_bounds_witness :
    100 ≤ humanDelayDuration 1000 3000 (1/2) (1/2) ∧
    humanDelayDuration 1000 3000 (1/2) (1/2) ≤ jsMax 100 (3000 + 40) ∧
    (60 ≤ (3000 : ℚ) → humanDelayDuration 1000 3000 (1/2) (1/2) ≤ 3000 + 40) :=
  c10_delay_bounds 1000 3000 (1/2) (1/2) (by norm_num) (by norm_num) (by norm_num)
    (by norm_num) (by norm_num)

/-! ## Claim C1 — missing required cookie is fatal, no success envelope -/

/-- C1: if, at extraction time, no `manheim`-domain cookie named `_cl` or
none named `SESSION` is present among the browser's cookies, the run ends
in a fatal error (the `Missing required cookies` throw fires before the
success POST is ever reached), and every envelope POSTed to the cookie
webhook in that run has `success:false` — none with `success:true` is
ever sent. -/
theorem c1_missing_required_fatal (url tsOk tsFail : String) (ac : List Cookie)
    (polls : List (List Cookie)) (deliveryStatus : Nat) (notifyDelivered : Bool)
    (h : ac.any isClMatch = false ∨ ac.any isSESSIONMatch = false) :
    (∃ e, (actorRunTail url ac polls tsOk tsFail deliveryStatus notifyDelivered).2 =
        .error e) ∧
    ∀ a ∈ (actorRunTail url ac polls tsOk tsFail deliveryStatus notifyDelivered).1,
      a.env.success = false := by
  have hmr : (missingRequired (initialScan ac)).isEmpty = false := by
    unfold missingRequired
    rcases h with h | h
    · have hnone : (initialScan ac).cl = none := by
        rw [initialScan_cl, ← Option.not_isSome_iff_eq_none]
        rw [find?_isSome_eq_any, h]
        exact Bool.false_ne_true
      simp [hnone]
    · have hnone : (initialScan ac).SESSION = none := by
        rw [initialScan_SESSION, ← Option.not_isSome_iff_eq_none]
        rw [find?_isSome_eq_any, h]
        exact Bool.false_ne_true
      simp [hnone]
  have hext : runExtraction ac polls tsOk =
      .error (missingRequiredMsg (missingRequired (initialScan ac))) := by
    simp only [runExtraction]
    rw [hmr]
    simp
  constructor
  · refine ⟨missingRequiredMsg (missingRequired (initialScan ac)), ?_⟩
    simp only [actorRunTail, tryBodyPosts, hext, catchNotify]
  · intro a ha
    simp only [actorRunTail, tryBodyPosts, hext, catchNotify, List.nil_append,
      List.mem_singleton] at ha
    rw [ha]
    rfl

theorem c1_missing_required_fatal_witness :
    (∃ e, (actorRunTail "hook" [] [] "t1" "t2" 200 true).2 = .error e) ∧
    ∀ a ∈ (actorRunTail "hook" [] [] "t1" "t2" 200 true).1, a.env.success = false :=
  c1_missing_required_fatal "hook" "t1" "t2" [] [] 200 true (Or.inl rfl)

/-! ## Claim C8 — failure notification on fatal errors -/

/-- Helper for C8, covering the portion of the run the `try` block
encloses: whenever the extraction-through-delivery tail ends in a fatal
error `e`, the trace of cookie-webhook POST attempts contains an
attempt, at the same webhook URL, carrying the failure envelope
`{success:false, timestamp, error:e, cookies:null}`; the outcome of that
best-effort notification fetch (`notifyDelivered`) never changes the
re-raised error. -/
theorem tail_failure_notification (url : String) (ac : List Cookie)
    (polls : List (List Cookie)) (tsOk tsFail : String) (deliveryStatus : Nat)
    (notifyDelivered : Bool) (e : String)
    (h : (actorRunTail url ac polls tsOk tsFail deliveryStatus notifyDelivered).2 =
      .error e) :
    (⟨url, failureEnvelope tsFail e, notifyDelivered⟩ : PostAttempt) ∈
      (actorRunTail url ac polls tsOk tsFail deliveryStatus notifyDelivered).1 ∧
    (failureEnvelope tsFail e).success = false ∧
    (failureEnvelope tsFail e).cookies = none ∧
    (failureEnvelope tsFail e).error = some e ∧
    (failureEnvelope tsFail e).timestamp = tsFail ∧
    (actorRunTail url ac polls tsOk tsFail deliveryStatus true).2 =
      (actorRunTail url ac polls tsOk tsFail deliveryStatus false).2 := by
  unfold actorRunTail at h ⊢
  cases hb : tryBodyPosts url tsOk ac polls deliveryStatus with
  | mk posts r =>
    rw [hb] at h
    cases r with
    | ok u =>
      exact absurd h (by simp [catchNotify])
    | error eBody =>
      simp only [catchNotify] at h ⊢
      have he : eBody = e := Except.error.inj h
      subst he
      exact ⟨List.mem_append_right _ (List.mem_singleton.mpr rfl), rfl, rfl, rfl, rfl,
        trivial⟩

/-- A run configuration with a webhook URL but an empty cookie array and
no credentials: pre-flight validation throws at line 749, before the
`try` block exists. -/
def c8BadConfig : RunConfig :=
  { manheimCookies := some [], credentials := none,
    cookieWebhookUrl := some (some "hook4") }

/-- C8 (counterexample): a fatal error is NOT always preceded by a
failure-notification POST — the validation error raised at line 749 is
thrown before the `try` at line 873, so the catch at line 1583 never
sees it: the run re-raises it to the scheduler with an empty
cookie-webhook trace, no `{success:false, ...}` envelope having been
sent. -/
theorem c8_pretry_error_skips_notification :
    (actorRunWithPreflight c8BadConfig "hook4" [] [] "ts" "tf" 200 true).2 =
      .error missingAuthMsg ∧
    (actorRunWithPreflight c8BadConfig "hook4" [] [] "ts" "tf" 200 true).1 = [] :=
  ⟨rfl, rfl⟩

/-- C8 (amended): on any fatal error raised inside the main `try` block
(extraction through delivery), before the error is re-raised to the
scheduler, a secondary POST with the envelope `{success:false,
timestamp, error, cookies:null}` is attempted at the same cookie webhook
URL, and a failure of that notification POST itself is only logged —
the original error is still the one re-raised, whatever the
notification outcome; a fatal error raised before the `try` block
(pre-flight validation, and the other setup throws) propagates to the
scheduler directly, with no POST to the cookie webhook at all. -/
theorem c8_notification_scope (cfg : RunConfig) (url : String) (ac : List Cookie)
    (polls : List (List Cookie)) (tsOk tsFail : String) (deliveryStatus : Nat)
    (notifyDelivered : Bool) (e : String) :
    (validateInput cfg = .ok () →
      (actorRunWithPreflight cfg url ac polls tsOk tsFail deliveryStatus
          notifyDelivered).2 = .error e →
      (⟨url, failureEnvelope tsFail e, notifyDelivered⟩ : PostAttempt) ∈
        (actorRunWithPreflight cfg url ac polls tsOk tsFail deliveryStatus
          notifyDelivered).1 ∧
      (failureEnvelope tsFail e).success = false ∧
      (failureEnvelope tsFail e).cookies = none ∧
      (failureEnvelope tsFail e).error = some e ∧
      (failureEnvelope tsFail e).timestamp = tsFail ∧
      (actorRunWithPreflight cfg url ac polls tsOk tsFail deliveryStatus true).2 =
        (actorRunWithPreflight cfg url ac polls tsOk tsFail deliveryStatus false).2) ∧
    (validateInput cfg = .error e →
      actorRunWithPreflight cfg url ac polls tsOk tsFail deliveryStatus
          notifyDelivered = ([], .error e)) := by
  constructor
  · intro hok herr
    unfold actorRunWithPreflight at herr ⊢
    rw [hok] at herr ⊢
    exact tail_failure_notification url ac polls tsOk tsFail deliveryStatus
      notifyDelivered e herr
  · intro herr
    unfold actorRunWithPreflight
    rw [herr]

/-- An essential cookie for the C8 passing-validation fixture. -/
def c8InputCookie : Cookie :=
  { name := "_cl", value := "v8", domain := ".manheim.com", path := "/",
    httpOnly := false, secure := false, sameSite := "Lax", expires := some 5 }

/-- A run configuration that passes pre-flight validation. -/
def c8OkConfig : RunConfig :=
  { manheimCookies := some [c8InputCookie], credentials := none,
    cookieWebhookUrl := some (some "hook5") }

theorem c8_notification_scope_witness :
    ((⟨"hook5", failureEnvelope "tf" "Missing required cookies: _cl, SESSION",
        true⟩ : PostAttempt) ∈
      (actorRunWithPreflight c8OkConfig "hook5" [] [] "ts" "tf" 200 true).1 ∧
     (failureEnvelope "tf" "Missing required cookies: _cl, SESSION").success = false ∧
     (failureEnvelope "tf" "Missing required cookies: _cl, SESSION").cookies = none ∧
     (failureEnvelope "tf" "Missing required cookies: _cl, SESSION").error =
       some "Missing required cookies: _cl, SESSION" ∧
     (failureEnvelope "tf" "Missing required cookies: _cl, SESSION").timestamp = "tf" ∧
     (actorRunWithPreflight c8OkConfig "hook5" [] [] "ts" "tf" 200 true).2 =
       (actorRunWithPreflight c8OkConfig "hook5" [] [] "ts" "tf" 200 false).2) ∧
    actorRunWithPreflight c8BadConfig "hook5" [] [] "ts" "tf" 200 true =
      ([], .error missingAuthMsg) :=
  ⟨(c8_notification_scope c8OkConfig "hook5" [] [] "ts" "tf" 200 true
      "Missing required cookies: _cl, SESSION").1 rfl rfl,
   (c8_notification_scope c8BadConfig "hook5" [] [] "ts" "tf" 200 true
      missingAuthMsg).2 rfl⟩

/-! ## Claim C4 — partial vs full extraction envelopes -/

/-- C4: when a `manheim`-domain `_cl` and `SESSION` cookie are present,
extraction never fails: the payload has `success:true`; `partial` is true
exactly when one of the optional cookies (`session`, `session.sig`) is
found neither in the browser snapshot nor in any of the (at most 3)
recovery re-polls; `missingCookies` lists exactly the still-missing
optional names (and is absent otherwise); the cookie array holds exactly
the found cookies in the fixed order; with both optional cookies found
the payload has `partial:false` and a 4-element cookie array; and on a
2xx delivery response the run posts exactly that success envelope and
finishes without error. -/
theorem c4_extraction_envelope (url tsOk tsFail : String) (ac : List Cookie)
    (polls : List (List Cookie)) (deliveryStatus : Nat) (notifyDelivered : Bool)
    (hcl : ac.any isClMatch = true) (hS : ac.any isSESSIONMatch = true) :
    ∃ p, runExtraction ac polls tsOk = .ok p ∧
      p.success = true ∧
      p.partialFlag = !(optionalFound ac polls isSessMatch &&
        optionalFound ac polls isSessSigMatch) ∧
      p.missingCookies =
        (if optionalFound ac polls isSessMatch && optionalFound ac polls isSessSigMatch
         then none
         else some ((if optionalFound ac polls isSessMatch then [] else ["session"]) ++
            (if optionalFound ac polls isSessSigMatch then [] else ["session.sig"]))) ∧
      p.cookies.map Cookie.name =
        ["_cl", "SESSION"] ++
          (if optionalFound ac polls isSessMatch then ["session"] else []) ++
          (if optionalFound ac polls isSessSigMatch then ["session.sig"] else []) ∧
      (optionalFound ac polls isSessMatch = true →
        optionalFound ac polls isSessSigMatch = true →
        p.partialFlag = false ∧ p.cookies.length = 4) ∧
      (statusOk deliveryStatus = true →
        actorRunTail url ac polls tsOk tsFail deliveryStatus notifyDelivered =
          ([⟨url, successEnvelope p, true⟩], .ok ())) := by
  have hclS : (ac.find? isClMatch).isSome = true := by
    rw [find?_isSome_eq_any]
    exact hcl
  obtain ⟨ccl, hccl⟩ := Option.isSome_iff_exists.mp hclS
  have hSS : (ac.find? isSESSIONMatch).isSome = true := by
    rw [find?_isSome_eq_any]
    exact hS
  obtain ⟨cS, hcS⟩ := Option.isSome_iff_exists.mp hSS
  have hclName : ccl.name = "_cl" := by
    have hm := List.find?_some hccl
    simp [isClMatch] at hm
    exact hm.1
  have hSName : cS.name = "SESSION" := by
    have hm := List.find?_some hcS
    simp [isSESSIONMatch] at hm
    exact hm.1
  have hmr : missingRequired (initialScan ac) = [] := by
    unfold missingRequired
    rw [initialScan_cl, initialScan_SESSION, hccl, hcS]
    simp
  have hrun : runExtraction ac polls tsOk = .ok (mkPayload tsOk (finalSlots ac polls)
      (!(missingOptionalOf (finalSlots ac polls)).isEmpty)
      (missingOptionalOf (finalSlots ac polls))) := by
    simp only [runExtraction]
    rw [hmr]
    rfl
  have hclSlot : (finalSlots ac polls).cl = some ccl := by
    rw [finalSlots_cl, hccl]
  have hSSlot : (finalSlots ac polls).SESSION = some cS := by
    rw [finalSlots_SESSION, hcS]
  have hsessSome := finalSlots_sess_isSome ac polls
  have hsigSome := finalSlots_sessSig_isSome ac polls
  refine ⟨_, hrun, rfl, ?_⟩
  have hdeliver : statusOk deliveryStatus = true →
      actorRunTail url ac polls tsOk tsFail deliveryStatus notifyDelivered =
        ([⟨url, successEnvelope (mkPayload tsOk (finalSlots ac polls)
            (!(missingOptionalOf (finalSlots ac polls)).isEmpty)
            (missingOptionalOf (finalSlots ac polls))), true⟩], .ok ()) := by
    intro hds
    unfold actorRunTail tryBodyPosts
    rw [hrun, hds]
    simp [catchNotify]
  cases hfs : optionalFound ac polls isSessMatch <;>
    cases hfg : optionalFound ac polls isSessSigMatch
  · have h3 : (finalSlots ac polls).sess = none := by
      rw [← Option.not_isSome_iff_eq_none]
      rw [hsessSome, hfs]
      exact Bool.false_ne_true
    have h4 : (finalSlots ac polls).sessSig = none := by
      rw [← Option.not_isSome_iff_eq_none]
      rw [hsigSome, hfg]
      exact Bool.false_ne_true
    refine ⟨?_, ?_, ?_, by simp, hdeliver⟩ <;>
      simp [mkPayload, missingOptionalOf, h3, h4, hclSlot, hSSlot, List.filterMap,
        hclName, hSName]
  · have h3 : (finalSlots ac polls).sess = none := by
      rw [← Option.not_isSome_iff_eq_none]
      rw [hsessSome, hfs]
      exact Bool.false_ne_true
    obtain ⟨c4, h4⟩ := Option.isSome_iff_exists.mp (by rw [hsigSome, hfg] :
      (finalSlots ac polls).sessSig.isSome = true)
    have h4Name : c4.name = "session.sig" := by
      have hm := finalSlots_sessSig_matches ac polls c4 h4
      simp [isSessSigMatch] at hm
      exact hm.1
    refine ⟨?_, ?_, ?_, by simp, hdeliver⟩ <;>
      simp [mkPayload, missingOptionalOf, h3, h4, hclSlot, hSSlot, List.filterMap,
        hclName, hSName, h4Name]
  · obtain ⟨c3, h3⟩ := Option.isSome_iff_exists.mp (by rw [hsessSome, hfs] :
      (finalSlots ac polls).sess.isSome = true)
    have h3Name : c3.name = "session" := by
      have hm := finalSlots_sess_matches ac polls c3 h3
      simp [isSessMatch] at hm
      exact hm.1
    have h4 : (finalSlots ac polls).sessSig = none := by
      rw [← Option.not_isSome_iff_eq_none]
      rw [hsigSome, hfg]
      exact Bool.false_ne_true
    refine ⟨?_, ?_, ?_, by simp, hdeliver⟩ <;>
      simp [mkPayload, missingOptionalOf, h3, h4, hclSlot, hSSlot, List.filterMap,
        hclName, hSName, h3Name]
  · obtain ⟨c3, h3⟩ := Option.isSome_iff_exists.mp (by rw [hsessSome, hfs] :
      (finalSlots ac polls).sess.isSome = true)
    have h3Name : c3.name = "session" := by
      have hm := finalSlots_sess_matches ac polls c3 h3
      simp [isSessMatch] at hm
      exact hm.1
    obtain ⟨c4, h4⟩ := Option.isSome_iff_exists.mp (by rw [hsigSome, hfg] :
      (finalSlots ac polls).sessSig.isSome = true)
    have h4Name : c4.name = "session.sig" := by
      have hm := finalSlots_sessSig_matches ac polls c4 h4
      simp [isSessSigMatch] at hm
      exact hm.1
    refine ⟨?_, ?_, ?_, ?_, hdeliver⟩ <;>
      simp [mkPayload, missingOptionalOf, h3, h4, hclSlot, hSSlot, List.filterMap,
        hclName, hSName, h3Name, h4Name]

/-- Fixture: the two required cookies in the browser snapshot. -/
def c4CookieCl : Cookie :=
  { name := "_cl", value := "clv", domain := "mmr.manheim.com", path := "/",
    httpOnly := false, secure := true, sameSite := "Lax", expires := some 2000000000 }

def c4CookieSESSION : Cookie :=
  { name := "SESSION", value := "sv", domain := "mmr.manheim.com", path := "/",
    httpOnly := true, secure := true, sameSite := "Lax", expires := some (-1) }

/-- Fixture: the two optional cookies, appearing only in the recovery
re-poll. -/
def c4CookieSession : Cookie :=
  { name := "session", value := "ov", domain := "mcom-header-footer.manheim.com",
    path := "/", httpOnly := true, secure := true, sameSite := "None",
    expires := some (-1) }

def c4CookieSig : Cookie :=
  { name := "session.sig", value := "sg", domain := "mcom-header-footer.manheim.com",
    path := "/", httpOnly := true, secure := true, sameSite := "None",
    expires := some (-1) }

def c4Browser : List Cookie := [c4CookieCl, c4CookieSESSION]

def c4Polls : List (List Cookie) := [[c4CookieSession, c4CookieSig]]

theorem c4_extraction_envelope_witness :
    ∃ p, runExtraction c4Browser c4Polls "ts" = .ok p ∧
      p.success = true ∧
      p.partialFlag = !(optionalFound c4Browser c4Polls isSessMatch &&
        optionalFound c4Browser c4Polls isSessSigMatch) ∧
      p.missingCookies =
        (if optionalFound c4Browser c4Polls isSessMatch &&
            optionalFound c4Browser c4Polls isSessSigMatch
         then none
         else some ((if optionalFound c4Browser c4Polls isSessMatch then []
              else ["session"]) ++
            (if optionalFound c4Browser c4Polls isSessSigMatch then []
              else ["session.sig"]))) ∧
      p.cookies.map Cookie.name =
        ["_cl", "SESSION"] ++
          (if optionalFound c4Browser c4Polls isSessMatch then ["session"] else []) ++
          (if optionalFound c4Browser c4Polls isSessSigMatch then ["session.sig"]
            else []) ∧
      (optionalFound c4Browser c4Polls isSessMatch = true →
        optionalFound c4Browser c4Polls isSessSigMatch = true →
        p.partialFlag = false ∧ p.cookies.length = 4) ∧
      (statusOk 200 = true →
        actorRunTail "hook3" c4Browser c4Polls "ts" "tf" 200 true =
          ([⟨"hook3", successEnvelope p, true⟩], .ok ())) :=
  c4_extraction_envelope "hook3" "ts" "tf" c4Browser c4Polls 200 true
    (by decide) (by decide)

end CookiesMMR
